import Mathlib

/-!
Shallow embedding of `plugins/modules/backup.py` from the
`googlebackupdr_ansible` collection: an Ansible module that triggers an
on-demand backup of an application in Google Backup and DR via its REST
API.  The Python module performs a strictly sequential run:
POST /session, entitlement scan, GET /slt, GET /slt/{id}/policy,
GET /application, POST /application/{id}/backup, and reports through
`module.exit_json` / `module.fail_json` (modelled as `ModuleResult`) or
by letting an exception escape (modelled as `Outcome.pythonError`).
HTTP responses the service would give to each endpoint are supplied up
front in a `Service` record; the run returns the outcome together with
the ordered list of HTTP calls it issued.
-/

namespace GBackupDR

/-- JSON values, as produced by `requests.Response.json()`.  Numbers are
modelled as integers (the ids the module manipulates are integral). -/
inductive Json where
  | null : Json
  | bool (b : Bool) : Json
  | num (n : Int) : Json
  | str (s : String) : Json
  | arr (xs : List Json) : Json
  | obj (fs : List (String × Json)) : Json

/-- The two classes of Python exception the module distinguishes:
`except KeyError` on line 121 catches only `keyError`, while the
`except Exception` blocks catch everything. -/
inductive PyExc where
  | keyError : PyExc
  | otherError : PyExc

/-- First binding of a key in an object's field list (JSON objects have
unique keys, so first = the binding). -/
def lookupField : List (String × Json) → String → Option Json
  | [], _ => none
  | (k, v) :: fs, key => if k = key then some v else lookupField fs key

/-- Python subscript `j[key]`: a `KeyError` when `j` is a dict without
the key, a `TypeError` (here `otherError`) when `j` is not a dict. -/
def Json.getField : Json → String → Except PyExc Json
  | .obj fs, key =>
    match lookupField fs key with
    | some v => .ok v
    | none => .error .keyError
  | _, _ => .error .otherError

/-- Python `==` between a JSON value and a module parameter (a `str`, or
`None` when the parameter was not supplied).  `None == None` is `True`
in Python and JSON `null` parses to `None`; any other cross-type
comparison is `False`. -/
def pyEq : Json → Option String → Bool
  | .str a, some b => a = b
  | .null, none => true
  | _, _ => false

/-- Python `f"{x}"` for a parameter that may be `None`. -/
def pyStr : Option String → String
  | some s => s
  | none => "None"

/-- Accumulate decimal digits; any non-digit fails. -/
def parseNatAux : List Char → Nat → Option Nat
  | [], acc => some acc
  | c :: cs, acc =>
    if c.isDigit then parseNatAux cs (acc * 10 + (c.toNat - 48)) else none

/-- Python `int` on a string: an optional sign followed by at least one
decimal digit (surrounding whitespace and digit-group underscores, which
Python also accepts, are not modelled: the ids at stake are plain
digits); anything else raises `ValueError`. -/
def pyIntOfStr (s : String) : Option Int :=
  match s.toList with
  | [] => none
  | '-' :: c :: cs => (parseNatAux (c :: cs) 0).map fun n => -(n : Int)
  | '+' :: c :: cs => (parseNatAux (c :: cs) 0).map fun n => (n : Int)
  | '-' :: [] => none
  | '+' :: [] => none
  | cs => (parseNatAux cs 0).map fun n => (n : Int)

/-- Python `int(x)` on a JSON value: succeeds on ints, bools and integral
strings, raises (uncaught in the module) otherwise. -/
def pyInt : Json → Except Unit Int
  | .num n => .ok n
  | .str s =>
    match pyIntOfStr s with
    | some n => .ok n
    | none => .error ()
  | .bool b => .ok (if b then 1 else 0)
  | _ => .error ()

/-- One HTTP response: status code and, when the body parses as JSON,
the parsed value (`none` means `.json()` raises). -/
structure HttpResponse where
  status : Nat
  body : Option Json

/-- The responses the external service gives to the five endpoints the
module can contact.  A single run issues at most one request per
endpoint, so a fixed response per endpoint captures every run. -/
structure Service where
  session : HttpResponse
  slt : HttpResponse
  policy : HttpResponse
  application : HttpResponse
  backup : HttpResponse

/-- The body of the backup-trigger POST built on lines 152-158:
`{"policy": {"id": int(pol_id)}}` plus `"label"` only when the label
parameter is truthy. -/
structure BackupBody where
  policyId : Int
  label : Option String

/-- The HTTP calls the module can issue, in program order.  The policy
lookup carries the resolved template id (it is interpolated into the
URL `/slt/{tpl_id}/policy`), and the trigger carries the application id
and the request body. -/
inductive Call where
  | session : Call
  | sltList : Call
  | policyList (tplId : Json) : Call
  | appList : Call
  | backupTrigger (appId : Json) (body : BackupBody) : Call

def Call.isTrigger : Call → Bool
  | .backupTrigger _ _ => true
  | _ => false

/-- The keyword arguments the module itself passes to `exit_json` /
`fail_json`: `failed` distinguishes the two, and `changed` / `msg` are
present exactly when the call site names them. -/
structure ModuleResult where
  failed : Bool
  changed : Option Bool
  msg : Option String

/-- How a run ends: a structured result handed to the host framework, or
an uncaught Python exception escaping the module. -/
inductive Outcome where
  | result (r : ModuleResult) : Outcome
  | pythonError : Outcome

def Outcome.isError : Outcome → Bool
  | .result r => r.failed
  | .pythonError => true

/-- The configuration `Backup.application` works with after lines
103-108: `api_url` and `access_token` have been `rstrip`-ped (they must
be strings or line 103/104 raises), the remaining parameters are used
as-is and are `None` when not supplied. -/
structure Config where
  api_url : String
  access_token : String
  template_name : Option String
  policy_name : Option String
  app_name : Option String
  label : Option String

/-- Count of rights whose `"id"` equals the required right, as
the comprehension `[True for r in session_json["rights"] if r["id"] ==
"Access to Backup & Recover"]` computes it: eager over the whole list,
any subscript error aborting the comprehension. -/
def countRights : List Json → Except Unit Nat
  | [] => .ok 0
  | r :: rs =>
    match r.getField "id" with
    | .error _ => .error ()
    | .ok v =>
      match countRights rs with
      | .error e => .error e
      | .ok n => .ok (if pyEq v (some "Access to Backup & Recover") then n + 1 else n)

/-- Lines 124-127: evaluate the rights comprehension.  A missing
`"rights"` key is a `KeyError`; a non-list value makes the iteration or
the element subscripts raise; all are caught by the bare
`except Exception`. -/
def scanRights (sessionJson : Json) : Except Unit Nat :=
  match sessionJson.getField "rights" with
  | .error _ => .error ()
  | .ok (.arr rs) => countRights rs
  | .ok _ => .error ()

/-- Value of `have_access` after lines 119-127: `True` exactly when the
comprehension evaluated without an exception and `[0]` found an element
(the swallowed `IndexError` covers the no-match case). -/
def haveAccess (sessionJson : Json) : Bool :=
  match scanRights sessionJson with
  | .ok (_ + 1) => true
  | _ => false

/-- The list comprehension of a lookup,
`[t["id"] for t in items if t[key] == target]`: eager left-to-right over
the whole list, so a malformed item anywhere (even after a match)
raises; matching items contribute their `"id"` values in order. -/
def collectIds : List Json → String → Option String → Except Unit (List Json)
  | [], _, _ => .ok []
  | t :: ts, key, target =>
    match t.getField key with
    | .error _ => .error ()
    | .ok v =>
      if pyEq v target then
        match t.getField "id" with
        | .error _ => .error ()
        | .ok i =>
          match collectIds ts key target with
          | .error e => .error e
          | .ok rest => .ok (i :: rest)
      else collectIds ts key target

/-- One name→id lookup as the three `try` blocks on lines 134-150
perform it: parse the body (`resp.json()`), subscript `["items"]`,
run the comprehension, take `[0]`.  Every failure mode — non-JSON body,
missing `"items"`, non-list items, malformed item, no match — raises
inside the `try` and surfaces as the same `.error ()`. -/
def lookupFirst (resp : HttpResponse) (key : String) (target : Option String) :
    Except Unit Json :=
  match resp.body with
  | none => .error ()
  | some j =>
    match j.getField "items" with
    | .error _ => .error ()
    | .ok (.arr items) =>
      match collectIds items key target with
      | .error _ => .error ()
      | .ok [] => .error ()
      | .ok (i :: _) => .ok i
    | .ok _ => .error ()

/-- Line 157: `if label:` — truthy means present and non-empty. -/
def labelTruthy : Option String → Bool
  | some s => ¬ (s = "")
  | none => false

def msgAuthFail : String :=
  "Failed authentication - ensure you have authenticated with gcloud"

def msgNoSessionId : String :=
  "Failed to get session ID on authentication"

def msgNoAccess : String :=
  "You do not have access to invoke BackupNow"

def msgTpl (templateName : Option String) : String :=
  "Failed to retrieve SLA template '" ++ pyStr templateName ++ "'"

def msgPol (policyName templateName : Option String) : String :=
  "Failed to retrieve SLA template policy '" ++ pyStr policyName ++
    "' for SLA template '" ++ pyStr templateName ++ "'"

def msgApp (appName : Option String) : String :=
  "Failed to retrieve application '" ++ pyStr appName ++ "'"

/-- Line 163 interpolates `backup_resp.json` — the bound method, not a
call — so the f-string renders the method object's repr, which names
the response (and its status) but never the response body. -/
def msgBackupFail (appName : Option String) (status : Nat) : String :=
  "Failed to initiate backup of application '" ++ pyStr appName ++
    "' (HTTP " ++ toString status ++ ": <bound method Response.json of <Response [" ++
    toString status ++ "]>>)"

def msgSuccess (appName : Option String) : String :=
  "Backup initiated for application '" ++ pyStr appName ++ "'"

/-- Translation of `Backup.application` (lines 98-165), step for step.  `fail_json` and
`exit_json` terminate the run, so each failing check returns
immediately with the calls issued so far; `Outcome.pythonError` marks
the places where an exception escapes uncaught (a non-JSON session body
on line 118, a `TypeError` subscripting a non-dict session JSON on line
120, `int(pol_id)` on line 154). -/
def application (cfg : Config) (svc : Service) : Outcome × List Call :=
  if svc.session.status = 200 then
    match svc.session.body with
    | none => (.pythonError, [.session])
    | some sj =>
      match sj.getField "id" with
      | .error .keyError => (.result ⟨true, none, some msgNoSessionId⟩, [.session])
      | .error .otherError => (.pythonError, [.session])
      | .ok _ =>
        if haveAccess sj then
          match lookupFirst svc.slt "name" cfg.template_name with
          | .error _ =>
            (.result ⟨true, none, some (msgTpl cfg.template_name)⟩, [.session, .sltList])
          | .ok tplId =>
            match lookupFirst svc.policy "name" cfg.policy_name with
            | .error _ =>
              (.result ⟨true, none, some (msgPol cfg.policy_name cfg.template_name)⟩,
                [.session, .sltList, .policyList tplId])
            | .ok polId =>
              match lookupFirst svc.application "appname" cfg.app_name with
              | .error _ =>
                (.result ⟨true, none, some (msgApp cfg.app_name)⟩,
                  [.session, .sltList, .policyList tplId, .appList])
              | .ok appId =>
                match pyInt polId with
                | .error _ =>
                  (.pythonError, [.session, .sltList, .policyList tplId, .appList])
                | .ok n =>
                  let body : BackupBody :=
                    ⟨n, if labelTruthy cfg.label then cfg.label else none⟩
                  if svc.backup.status < 200 ∨ svc.backup.status > 204 then
                    (.result ⟨true, none, some (msgBackupFail cfg.app_name svc.backup.status)⟩,
                      [.session, .sltList, .policyList tplId, .appList,
                        .backupTrigger appId body])
                  else
                    (.result ⟨false, some true, some (msgSuccess cfg.app_name)⟩,
                      [.session, .sltList, .policyList tplId, .appList,
                        .backupTrigger appId body])
        else
          (.result ⟨true, some false, some msgNoAccess⟩, [.session])
  else
    (.result ⟨true, some false, some msgAuthFail⟩, [.session])

/-- The parameters as the host framework hands them over: every name in
the argument spec is present, unsupplied ones as `None`. -/
structure Params where
  api_url : Option String
  access_token : Option String
  template_name : Option String
  policy_name : Option String
  app_name : Option String
  label : Option String

/-- One entry of the declared argument spec: the parameter name and
whether the entry marks it required. -/
structure ArgSpecEntry where
  name : String
  required : Bool

/-- Lines 173-180: the argument spec as declared — `type="str"` only, no
entry carries `required=True`. -/
def argument_spec : List ArgSpecEntry :=
  [⟨"api_url", false⟩, ⟨"access_token", false⟩, ⟨"template_name", false⟩,
    ⟨"policy_name", false⟩, ⟨"app_name", false⟩, ⟨"label", false⟩]

/-- Modelled from the spec: the host automation framework "parses its
declared input schema" — it rejects an invocation only when a parameter
the declared spec marks required is missing.  `provided` lists the
parameter names the invocation supplies. -/
def specAccepts (spec : List ArgSpecEntry) (provided : List String) : Bool :=
  spec.all fun e => !e.required || provided.contains e.name

/-- Python `str.rstrip("/")`: drop trailing slashes. -/
def rstripSlashes (s : String) : String :=
  ((s.toList.reverse.dropWhile fun c => c = '/').reverse).asString

/-- Python `str.rstrip()`: drop trailing whitespace. -/
def rstripWs (s : String) : String :=
  ((s.toList.reverse.dropWhile fun c => c.isWhitespace).reverse).asString

/-- Translation of `main` (lines 171-196): build the module (no parameter is rejected,
see `argument_spec`), exit `changed=True` without a `msg` and with no
network call in check mode (line 191 passes only `changed` and
`backup`), otherwise run `Backup.application`.  A `None` `api_url` or
`access_token` raises `AttributeError` at line 103/104 before any
network call. -/
def mainRun (p : Params) (checkMode : Bool) (svc : Service) : Outcome × List Call :=
  if checkMode then
    (.result ⟨false, some true, none⟩, [])
  else
    match p.api_url, p.access_token with
    | some u, some t =>
      application
        ⟨rstripSlashes u, rstripWs t, p.template_name, p.policy_name, p.app_name, p.label⟩
        svc
    | _, _ => (.pythonError, [])

end GBackupDR

namespace GBackupDR

/-- Does `sub` occur as a contiguous substring of the character list? -/
def listContainsSub (sub : List Char) : List Char → Bool
  | [] => sub.isEmpty
  | c :: cs => sub.isPrefixOf (c :: cs) || listContainsSub sub cs

/-- Does `sub` occur as a contiguous substring of `s`? -/
def strContainsSub (s sub : String) : Bool :=
  listContainsSub sub.toList s.toList

/-- A well-formed session body: id `"S1"` and the required right. -/
def sjOk : Json :=
  .obj [("id", .str "S1"),
    ("rights", .arr [.obj [("id", .str "Access to Backup & Recover")]])]

def sessionRespOk : HttpResponse := ⟨200, some sjOk⟩

def sltRespOk : HttpResponse :=
  ⟨200, some (.obj [("items", .arr [.obj [("id", .str "1"), ("name", .str "tpl")]])])⟩

def polRespOk : HttpResponse :=
  ⟨200, some (.obj [("items", .arr [.obj [("id", .str "2"), ("name", .str "pol")]])])⟩

def appRespOk : HttpResponse :=
  ⟨200, some (.obj [("items", .arr [.obj [("id", .str "3"), ("appname", .str "app")]])])⟩

/-- The mock service of §8 of the spec: session id `"S1"` with the
backup right, template list `[{id:"1",name:"tpl"}]`, policy list
`[{id:"2",name:"pol"}]`, app list `[{id:"3",appname:"app"}]`, trigger
status 202. -/
def svcOk : Service := ⟨sessionRespOk, sltRespOk, polRespOk, appRespOk, ⟨202, none⟩⟩

/-- A config naming the mock service's template, policy and app. -/
def cfgOk : Config :=
  ⟨"http://x", "tok", some "tpl", some "pol", some "app", none⟩

/-- The same service but the trigger call answers 500 with body "boom". -/
def svcTrigger500 : Service :=
  ⟨sessionRespOk, sltRespOk, polRespOk, appRespOk, ⟨500, some (.str "boom")⟩⟩

/-- The same service but the template-list response is not JSON. -/
def svcBadSlt : Service :=
  ⟨sessionRespOk, ⟨200, none⟩, ⟨200, none⟩, ⟨200, none⟩, ⟨200, none⟩⟩

/-- A service whose session call is rejected outright. -/
def svcAuthFail : Service :=
  ⟨⟨401, none⟩, ⟨200, none⟩, ⟨200, none⟩, ⟨200, none⟩, ⟨200, none⟩⟩

/-- A 200 session response with an id but no "rights" key at all. -/
def sjNoRights : Json := .obj [("id", .str "S1")]

def svcNoRights : Service :=
  ⟨⟨200, some sjNoRights⟩, ⟨200, none⟩, ⟨200, none⟩, ⟨200, none⟩, ⟨200, none⟩⟩

/-- If the rights scan raises (swallowed by the bare `except`), the run
is denied with the no-access message after only the session call. -/
theorem application_denied_of_scan_error (cfg : Config) (svc : Service) (sj v : Json)
    (h200 : svc.session.status = 200) (hb : svc.session.body = some sj)
    (hid : sj.getField "id" = .ok v) (hacc : haveAccess sj = false) :
    application cfg svc = (.result ⟨true, some false, some msgNoAccess⟩, [.session]) := by
  unfold application
  simp only [if_pos h200, hb, hid, hacc]
  simp

/-- A rights list none of whose entries carries the required right can
only yield a comprehension error or a zero count. -/
theorem countRights_no_match (rs : List Json)
    (h : ∀ r ∈ rs, ∀ v, r.getField "id" = .ok v →
      pyEq v (some "Access to Backup & Recover") = false) :
    countRights rs = .error () ∨ countRights rs = .ok 0 := by
  induction rs with
  | nil => exact .inr rfl
  | cons r rs ih =>
    unfold countRights
    cases hg : r.getField "id" with
    | error e => exact .inl rfl
    | ok v =>
      have hv := h r (List.mem_cons_self r rs) v hg
      rcases ih (fun r' hr' v' hv' => h r' (List.mem_cons_of_mem r hr') v' hv') with h1 | h1 <;>
        simp [h1, hv]

end GBackupDR

namespace GBackupDR

/-- C9: a 200 session response that carries an `"id"` but whose rights
scan raises — `"rights"` missing, not a list, or an entry without a
subscriptable `"id"` — is reported as the authorization denial
`"You do not have access to invoke BackupNow"`, because the bare
`except Exception: pass` swallows the exception and leaves
`have_access` false. -/
theorem malformed_rights_treated_as_denial (cfg : Config) (svc : Service) (sj v : Json)
    (h200 : svc.session.status = 200) (hb : svc.session.body = some sj)
    (hid : sj.getField "id" = .ok v) (hscan : scanRights sj = .error ()) :
    application cfg svc = (.result ⟨true, some false, some msgNoAccess⟩, [.session]) := by
  have hacc : haveAccess sj = false := by
    unfold haveAccess
    rw [hscan]
  exact application_denied_of_scan_error cfg svc sj v h200 hb hid hacc

/-- Witness for C9: a session body with an id but no "rights" key is
denied with the no-access message. -/
theorem malformed_rights_treated_as_denial_witness :
    application cfgOk svcNoRights =
      (.result ⟨true, some false, some msgNoAccess⟩, [.session]) :=
  malformed_rights_treated_as_denial cfgOk svcNoRights sjNoRights (.str "S1")
    rfl rfl rfl rfl

/-- C4: a 200 session response with a session id whose entitlement list
is a list containing no right with id "Access to Backup & Recover"
makes the run fail with the authorization denial, and the only HTTP
call ever issued is the session POST — no template, policy, application
or backup call follows. -/
theorem no_required_right_denied_before_lookups (cfg : Config) (svc : Service)
    (sj v : Json) (rs : List Json)
    (h200 : svc.session.status = 200) (hb : svc.session.body = some sj)
    (hid : sj.getField "id" = .ok v)
    (hr : sj.getField "rights" = .ok (.arr rs))
    (hnone : ∀ r ∈ rs, ∀ w, r.getField "id" = .ok w →
      pyEq w (some "Access to Backup & Recover") = false) :
    application cfg svc = (.result ⟨true, some false, some msgNoAccess⟩, [.session]) := by
  have hacc : haveAccess sj = false := by
    unfold haveAccess scanRights
    simp only [hr]
    rcases countRights_no_match rs hnone with h1 | h1 <;> simp [h1]
  exact application_denied_of_scan_error cfg svc sj v h200 hb hid hacc

/-- A session body whose rights list holds only an unrelated right. -/
def sjWrongRight : Json :=
  .obj [("id", .str "S1"), ("rights", .arr [.obj [("id", .str "System Monitor")]])]

def svcWrongRight : Service :=
  ⟨⟨200, some sjWrongRight⟩, ⟨200, none⟩, ⟨200, none⟩, ⟨200, none⟩, ⟨200, none⟩⟩

/-- Witness for C4: a session carrying only the right "System Monitor"
is denied after the session call alone. -/
theorem no_required_right_denied_before_lookups_witness :
    application cfgOk svcWrongRight =
      (.result ⟨true, some false, some msgNoAccess⟩, [.session]) :=
  no_required_right_denied_before_lookups cfgOk svcWrongRight sjWrongRight (.str "S1")
    [.obj [("id", .str "System Monitor")]] rfl rfl rfl rfl
    (by
      intro r hr w hw
      simp only [List.mem_singleton] at hr
      subst hr
      simp only [Json.getField, lookupField] at hw
      simp at hw
      subst hw
      rfl)

/-- C6: in check mode `main` exits immediately with `changed=True` (and
nothing else: line 191 passes no `msg`), issuing no HTTP call at all. -/
theorem check_mode_changed_no_calls (p : Params) (svc : Service) :
    mainRun p true svc = (.result ⟨false, some true, none⟩, []) := rfl

end GBackupDR

namespace GBackupDR

/-- Does one of the steps preceding the backup-trigger POST fail?  The
disjuncts, along the executed path: session establishment (non-200),
session-id extraction (non-JSON body or no usable `"id"`), entitlement
check, template lookup, policy lookup, application lookup. -/
def earlyStepFails (cfg : Config) (svc : Service) : Bool :=
  if svc.session.status = 200 then
    match svc.session.body with
    | none => true
    | some sj =>
      match sj.getField "id" with
      | .error .keyError => true
      | .error .otherError => true
      | .ok _ =>
        if haveAccess sj then
          match lookupFirst svc.slt "name" cfg.template_name with
          | .error _ => true
          | .ok _ =>
            match lookupFirst svc.policy "name" cfg.policy_name with
            | .error _ => true
            | .ok _ =>
              match lookupFirst svc.application "appname" cfg.app_name with
              | .error _ => true
              | .ok _ => false
        else true
  else true

/-- C1: whenever a step before the backup trigger fails — session
establishment, session-id extraction, entitlement check, or any of the
three lookups — the run terminates with an error (a `fail_json` result
or an escaping exception) and the backup-trigger POST is never issued.
Contrapositively, a trigger call in the issued-call list implies every
prior step succeeded. -/
theorem early_failure_means_no_trigger (cfg : Config) (svc : Service)
    (h : earlyStepFails cfg svc = true) :
    (application cfg svc).1.isError = true ∧
      (application cfg svc).2.any Call.isTrigger = false := by
  unfold application
  unfold earlyStepFails at h
  repeat' split at h
  all_goals simp_all [Outcome.isError, Call.isTrigger]

/-- Witness for C1: a 401 session response fails the run after the
session call alone; no trigger call appears. -/
theorem early_failure_means_no_trigger_witness :
    earlyStepFails cfgOk svcAuthFail = true ∧
      (application cfgOk svcAuthFail).1.isError = true ∧
      (application cfgOk svcAuthFail).2.any Call.isTrigger = false :=
  ⟨rfl, early_failure_means_no_trigger cfgOk svcAuthFail rfl⟩

/-- The id of the first item of the list whose `key` field equals the
requested name — the resolution rule the specification describes for
the three lookups.  (Branches for malformed items are immaterial: the
claim theorem assumes well-formed items.) -/
def firstMatchId (key : String) (target : Option String) : List Json → Option Json
  | [] => none
  | t :: ts =>
    match t.getField key with
    | .ok v =>
      if pyEq v target then
        match t.getField "id" with
        | .ok i => some i
        | .error _ => none
      else firstMatchId key target ts
    | .error _ => none

/-- Over well-formed items the lookup comprehension succeeds and its
first element is the first matching item's id. -/
theorem collectIds_head_eq_firstMatch (key : String) (target : Option String)
    (items : List Json)
    (hwf : ∀ t ∈ items, (∃ v, t.getField key = .ok v) ∧ ∃ w, t.getField "id" = .ok w) :
    ∃ l, collectIds items key target = .ok l ∧ l.head? = firstMatchId key target items := by
  induction items with
  | nil => exact ⟨[], rfl, rfl⟩
  | cons t ts ih =>
    obtain ⟨⟨v, hv⟩, ⟨w, hw⟩⟩ := hwf t (List.mem_cons_self t ts)
    obtain ⟨l, hl, hh⟩ := ih fun t' ht' => hwf t' (List.mem_cons_of_mem t ht')
    unfold collectIds firstMatchId
    simp only [hv, hw, hl]
    by_cases hp : pyEq v target = true
    · exact ⟨w :: l, by simp [hp], by simp [hp]⟩
    · exact ⟨l, by simp [hp], by simp [hp, hh]⟩

/-- C5: each lookup (template by `"name"`, policy by `"name"` under the
resolved template id, application by `"appname"` — in `application`
these are `lookupFirst` at the respective response and key) resolves to
the id of the first item whose `key` field equals the requested name;
with duplicate names the earliest item in list order wins, since
`firstMatchId` returns the first match. -/
theorem lookup_resolves_to_first_match (resp : HttpResponse) (key : String)
    (target : Option String) (j : Json) (items : List Json) (i : Json)
    (hbody : resp.body = some j)
    (hitems : j.getField "items" = .ok (.arr items))
    (hwf : ∀ t ∈ items, (∃ v, t.getField key = .ok v) ∧ ∃ w, t.getField "id" = .ok w)
    (hfirst : firstMatchId key target items = some i) :
    lookupFirst resp key target = .ok i := by
  obtain ⟨l, hl, hh⟩ := collectIds_head_eq_firstMatch key target items hwf
  unfold lookupFirst
  simp only [hbody, hitems, hl]
  rw [hfirst] at hh
  cases l with
  | nil => simp at hh
  | cons a l' =>
    simp only [List.head?] at hh
    cases hh
    rfl

/-- A template list with two items named "dup": ids "7" then "8". -/
def dupItemsResp : HttpResponse :=
  ⟨200, some (.obj [("items", .arr
    [.obj [("id", .str "7"), ("name", .str "dup")],
      .obj [("id", .str "8"), ("name", .str "dup")]])])⟩

/-- Witness for C5: with duplicate names "dup", the lookup returns the
id "7" of the earliest item. -/
theorem lookup_resolves_to_first_match_witness :
    lookupFirst dupItemsResp "name" (some "dup") = .ok (.str "7") :=
  lookup_resolves_to_first_match dupItemsResp "name" (some "dup") _ _ _ rfl rfl
    (by
      intro t ht
      simp only [List.mem_cons, List.not_mem_nil, or_false] at ht
      rcases ht with rfl | rfl
      · exact ⟨⟨_, rfl⟩, ⟨_, rfl⟩⟩
      · exact ⟨⟨_, rfl⟩, ⟨_, rfl⟩⟩)
    rfl

end GBackupDR

namespace GBackupDR

/-- C10: once the run is past the entitlement check, ANY exception while
processing a lookup response — the respective `lookupFirst` returning
`.error ()` covers a non-JSON body, a missing `"items"` key, a non-list
`"items"`, malformed items and a genuine no-match alike — produces
exactly the not-found `fail_json` naming the requested entity, so
malformed responses are indistinguishable from name-resolution misses. -/
theorem lookup_failure_reported_as_not_found (cfg : Config) (svc : Service)
    (sj v : Json)
    (h200 : svc.session.status = 200) (hb : svc.session.body = some sj)
    (hid : sj.getField "id" = .ok v) (hacc : haveAccess sj = true) :
    (lookupFirst svc.slt "name" cfg.template_name = .error () →
      application cfg svc =
        (.result ⟨true, none, some (msgTpl cfg.template_name)⟩,
          [.session, .sltList])) ∧
    (∀ tplId, lookupFirst svc.slt "name" cfg.template_name = .ok tplId →
      lookupFirst svc.policy "name" cfg.policy_name = .error () →
      application cfg svc =
        (.result ⟨true, none, some (msgPol cfg.policy_name cfg.template_name)⟩,
          [.session, .sltList, .policyList tplId])) ∧
    (∀ tplId polId, lookupFirst svc.slt "name" cfg.template_name = .ok tplId →
      lookupFirst svc.policy "name" cfg.policy_name = .ok polId →
      lookupFirst svc.application "appname" cfg.app_name = .error () →
      application cfg svc =
        (.result ⟨true, none, some (msgApp cfg.app_name)⟩,
          [.session, .sltList, .policyList tplId, .appList])) := by
  refine ⟨?_, ?_, ?_⟩
  · intro htpl
    unfold application
    simp only [if_pos h200, hb, hid, hacc, htpl]
    simp
  · intro tplId htpl hpol
    unfold application
    simp only [if_pos h200, hb, hid, hacc, htpl, hpol]
    simp
  · intro tplId polId htpl hpol happ
    unfold application
    simp only [if_pos h200, hb, hid, hacc, htpl, hpol, happ]
    simp

/-- Witness for C10: a non-JSON template-list body yields the not-found
message for the requested template, though no name resolution was even
attempted. -/
theorem lookup_failure_reported_as_not_found_witness :
    application cfgOk svcBadSlt =
      (.result ⟨true, none, some (msgTpl (some "tpl"))⟩, [.session, .sltList]) :=
  (lookup_failure_reported_as_not_found cfgOk svcBadSlt sjOk (.str "S1")
    rfl rfl rfl rfl).1 rfl

end GBackupDR

namespace GBackupDR

/-- The §8 happy-path parameter set, with all five documented-required
parameters supplied and no label. -/
def paramsOk : Params :=
  ⟨some "http://x", some "tok", some "tpl", some "pol", some "app", none⟩

/-- Counterexample to C7: the check-mode exit (line 191 passes only
`changed=True` and `backup=backup` to `exit_json`) hands the framework
a result with no `msg` field at all, so not every exit path carries
both `changed` and `msg`. -/
theorem check_mode_exit_lacks_msg :
    ∃ r, (mainRun paramsOk true svcOk).1 = .result r ∧
      r.changed = some true ∧ r.msg = none :=
  ⟨⟨false, some true, none⟩, rfl, rfl, rfl⟩

/-- C7 as amended: every exit of `Backup.application` that reaches
`exit_json`/`fail_json` supplies a string `msg`, and on success
`changed` is true and `msg` announces the backup initiated for the
given app name; the check-mode exit instead supplies `changed=True` and
no `msg`.  (`changed` is also omitted on several failure exits, where
only `msg` is passed.) -/
theorem exits_carry_msg_and_success_shape :
    (∀ cfg svc r, (application cfg svc).1 = .result r →
      r.msg.isSome = true ∧
        (r.failed = false →
          r.changed = some true ∧ r.msg = some (msgSuccess cfg.app_name))) ∧
    ∀ p svc, (mainRun p true svc).1 = .result ⟨false, some true, none⟩ := by
  constructor
  · intro cfg svc r h
    unfold application at h
    repeat' split at h
    all_goals simp only [] at h
    all_goals cases h
    all_goals simp
  · intro p svc
    rfl

/-- Witness for C7 (amended): the happy-path run exits with
`changed=True` and the initiated-backup message, and the check-mode run
with `changed=True` and no message. -/
theorem exits_carry_msg_and_success_shape_witness :
    ((⟨false, some true, some (msgSuccess (some "app"))⟩ : ModuleResult).msg.isSome = true ∧
      ((false : Bool) = false →
        (some true : Option Bool) = some true ∧
          some (msgSuccess (some "app")) = some (msgSuccess cfgOk.app_name))) ∧
    (mainRun paramsOk true svcOk).1 = .result ⟨false, some true, none⟩ :=
  ⟨exits_carry_msg_and_success_shape.1 cfgOk svcOk
      ⟨false, some true, some (msgSuccess (some "app"))⟩ rfl,
    exits_carry_msg_and_success_shape.2 paramsOk svcOk⟩

end GBackupDR

namespace GBackupDR

/-- The happy-path config with an empty-string label supplied. -/
def cfgEmptyLabel : Config :=
  ⟨"http://x", "tok", some "tpl", some "pol", some "app", some ""⟩

/-- Counterexample to C8: the label parameter is present (the empty
string), yet line 157's truthiness test `if label:` drops it, so the
trigger body carries only the policy id and no label key. -/
theorem empty_label_omitted_from_body :
    cfgEmptyLabel.label = some "" ∧
      (application cfgEmptyLabel svcOk).2 =
        [.session, .sltList, .policyList (.str "1"), .appList,
          .backupTrigger (.str "3") ⟨2, none⟩] :=
  ⟨rfl, rfl⟩

/-- C8 as amended: the trigger body carries the label verbatim exactly
when the label parameter is truthy (present AND non-empty); an absent
or empty label leaves the body with only the resolved policy id, which
is always present as `int` of the id the policy lookup resolved. -/
theorem trigger_body_label_and_policy (cfg : Config) (svc : Service)
    (a : Json) (b : BackupBody)
    (h : Call.backupTrigger a b ∈ (application cfg svc).2) :
    b.label = (if labelTruthy cfg.label then cfg.label else none) ∧
      ∃ polId, lookupFirst svc.policy "name" cfg.policy_name = .ok polId ∧
        pyInt polId = .ok b.policyId := by
  unfold application at h
  repeat' split at h
  all_goals simp_all

/-- The happy-path config with label "nightly". -/
def cfgLabel : Config :=
  ⟨"http://x", "tok", some "tpl", some "pol", some "app", some "nightly"⟩

/-- Witness for C8 (amended): with label "nightly" the issued trigger
body carries that label and policy id 2, resolved from the policy named
"pol". -/
theorem trigger_body_label_and_policy_witness :
    (⟨2, some "nightly"⟩ : BackupBody).label =
        (if labelTruthy cfgLabel.label then cfgLabel.label else none) ∧
      ∃ polId, lookupFirst svcOk.policy "name" cfgLabel.policy_name = .ok polId ∧
        pyInt polId = .ok (⟨2, some "nightly"⟩ : BackupBody).policyId :=
  trigger_body_label_and_policy cfgLabel svcOk (.str "3") ⟨2, some "nightly"⟩
    (by
      have hcalls : (application cfgLabel svcOk).2 =
          [.session, .sltList, .policyList (.str "1"), .appList,
            .backupTrigger (.str "3") ⟨2, some "nightly"⟩] := rfl
      rw [hcalls]
      exact List.mem_cons_of_mem _ (List.mem_cons_of_mem _ (List.mem_cons_of_mem _
        (List.mem_cons_of_mem _ (List.mem_cons_self _ _)))))

end GBackupDR

namespace GBackupDR

/-- C2 (code bug): a trigger status outside [200,204] does fail after
exactly one trigger attempt and the message does carry the status code,
but the "response body" part of the claim fails on the code: line 163
interpolates `backup_resp.json` without calling it, so the message
embeds the bound method's repr and never the body — here the body
"boom" does not occur in the message. -/
theorem trigger_error_message_has_status_not_body :
    application cfgOk svcTrigger500 =
      (.result ⟨true, none, some (msgBackupFail (some "app") 500)⟩,
        [.session, .sltList, .policyList (.str "1"), .appList,
          .backupTrigger (.str "3") ⟨2, none⟩]) ∧
      svcTrigger500.backup.body = some (.str "boom") ∧
      strContainsSub (msgBackupFail (some "app") 500) "500" = true ∧
      strContainsSub (msgBackupFail (some "app") 500) "boom" = false ∧
      ((application cfgOk svcTrigger500).2.countP fun c => c.isTrigger) = 1 :=
  ⟨rfl, rfl, rfl, rfl, rfl⟩

/-- For statuses within [200,204] the trigger call succeeds: the other
half of C2, checked at the boundary statuses 200 and 204 next to the
failing 205 and 199. -/
theorem trigger_status_range (cfg : Config) (svc : Service) (a : Json) (b : BackupBody)
    (h : Call.backupTrigger a b ∈ (application cfg svc).2)
    (hs : 200 ≤ svc.backup.status ∧ svc.backup.status ≤ 204) :
    (application cfg svc).1 =
      .result ⟨false, some true, some (msgSuccess cfg.app_name)⟩ := by
  unfold application at *
  repeat' split at h
  all_goals simp_all
  all_goals first
    | rfl
    | (exfalso; omega)
    | (split <;> first | rfl | (exfalso; omega))

/-- Witness for the in-range half of C2: status 202 exits successfully. -/
theorem trigger_status_range_witness :
    (application cfgOk svcOk).1 =
      .result ⟨false, some true, some (msgSuccess cfgOk.app_name)⟩ :=
  trigger_status_range cfgOk svcOk (.str "3") ⟨2, none⟩
    (by
      have hcalls : (application cfgOk svcOk).2 =
          [.session, .sltList, .policyList (.str "1"), .appList,
            .backupTrigger (.str "3") ⟨2, none⟩] := rfl
      rw [hcalls]
      exact List.mem_cons_of_mem _ (List.mem_cons_of_mem _ (List.mem_cons_of_mem _
        (List.mem_cons_of_mem _ (List.mem_cons_self _ _)))))
    ⟨by decide, by decide⟩

/-- The §8 parameters with `app_name` left unsupplied (`None`). -/
def paramsNoApp : Params :=
  ⟨some "http://x", some "tok", some "tpl", some "pol", none, none⟩

/-- C3 (code bug): the DOCUMENTATION block declares the five parameters
`required: true`, but `argument_spec` (lines 173-180) marks none of
them required, so the framework accepts an invocation without
`app_name`, and the module proceeds to contact the service — session,
template, policy and application calls are all issued — failing only
when the application lookup cannot match the name `None`, instead of
rejecting the invocation up front. -/
theorem missing_required_param_not_rejected :
    specAccepts argument_spec
        ["api_url", "access_token", "template_name", "policy_name"] = true ∧
      mainRun paramsNoApp false svcOk =
        (.result ⟨true, none, some (msgApp none)⟩,
          [.session, .sltList, .policyList (.str "1"), .appList]) :=
  ⟨rfl, rfl⟩

end GBackupDR
